import Mathlib

/-!
# Verification of the wwsvc-rs WEBSERVICES client core

Shallow embedding of the authenticated-request / cursor subsystem of the
`wwsvc-rs` crate: request signing (`src/app_hash.rs`), the pagination cursor
(`src/cursor.rs`), the client session with its registration lifecycle and
header construction (`src/client.rs`), and the cursor-driven paginator
(`src/cursor_response.rs`).

Machine integers (`u32`) are modelled as `Nat` with explicit `% 2^32`
where overflow matters.  Wall-clock time is modelled as an explicit
parameter carrying the seconds since the Unix epoch.  Network I/O is
modelled by explicit request traces: every operation that may touch the
network returns the list of HTTP requests it issued, and takes the
server's answer as an argument.
-/

set_option maxRecDepth 10000

namespace WWSvc

/-! ## URL model

`url::Url` is modelled as its path-segment list (scheme and host play no
role in the claims).  A path `/WWSVC/` is the segment list
`["WWSVC", ""]` — a trailing slash is an empty final segment, exactly as
in the WHATWG / RFC 3986 segment decomposition used by the `url` crate.

`Url::join` with a relative reference that is a single plain segment
(no slash, colon, query or fragment — which is what `client.rs` passes)
resolves per RFC 3986 §5.3 by merging: the last segment of the base path
is dropped and the reference segment is appended.  In particular a base
path that does *not* end in `/` has its final segment replaced.
-/

/-- A URL, reduced to its path segments. `/a/b/` is `["a", "b", ""]`. -/
structure UrlM where
  segments : List String
  deriving Repr, DecidableEq

/-- `Url::join` for a single plain relative segment (RFC 3986 §5.3 merge):
drop the last segment of the base path, append the new segment. -/
def UrlM.join (u : UrlM) (seg : String) : UrlM :=
  ⟨u.segments.dropLast ++ [seg]⟩

/-- Render the path as a string, the way `Url::path()` does. -/
def UrlM.pathString (u : UrlM) : String :=
  "/" ++ String.intercalate "/" u.segments

/-- The base URL built by the client builder from a host URL:
`Url::parse(url).join("/WWSVC/")` — an absolute-path reference, so the
result path is always `/WWSVC/`. -/
def builderBaseUrl : UrlM := ⟨["WWSVC", ""]⟩

/-! ## Data model: credentials and cursor (`credentials.rs`, `cursor.rs`) -/

/-- `Credentials` (src/credentials.rs). -/
structure Credentials where
  service_pass : String
  app_id : String
  deriving Repr, DecidableEq

/-- Pagination `Cursor` (src/cursor.rs). -/
structure Cursor where
  cursor_id : String
  max_lines : Nat
  deriving Repr, DecidableEq

/-- `Cursor::new` (src/cursor.rs): id starts at the `"CREATE"` sentinel. -/
def Cursor.new (max_lines : Nat) : Cursor :=
  ⟨"CREATE", max_lines⟩

/-- `Cursor::closed` (src/cursor.rs): closed iff the id is `"CLOSED"`. -/
def Cursor.closed (c : Cursor) : Bool :=
  c.cursor_id == "CLOSED"

/-- `Cursor::set_cursor_id` (src/cursor.rs). -/
def Cursor.set_cursor_id (c : Cursor) (cursor_id : String) : Cursor :=
  { c with cursor_id := cursor_id }

/-! ## Error type (`error.rs`) -/

/-- `WWSVCError` (src/error.rs), transport and header errors folded to
their carrier constructors. -/
inductive WWSVCError where
  | NotAuthenticated
  | MissingCredentials
  | HeaderValueToStrError
  | InvalidHeader
  | ReqwestError
  | InvalidHeaderValue
  | UrlParseError
  deriving Repr, DecidableEq

/-! ## Client state (`client.rs`)

`WebwareClient<State>` is a record plus a phantom type-state marker; the
marker is modelled as a separate tag where a claim needs it.  The
`reqwest::Client` field carries no state relevant to any claim and is
omitted. -/

/-- The type-state marker of `WebwareClient` (src/client.rs). -/
inductive ClientState where
  | Unregistered
  | Registered
  | OpenCursor
  deriving Repr, DecidableEq

/-- The `Ready` marker trait (src/client.rs): `Registered` and
`OpenCursor` are ready. -/
def ClientState.ready : ClientState → Bool
  | .Unregistered => false
  | .Registered => true
  | .OpenCursor => true

/-- The fields of `WebwareClient` (src/client.rs), minus the reqwest
handle and the phantom marker. -/
structure WebwareClient where
  webware_url : UrlM
  vendor_hash : String
  app_hash : String
  secret : String
  revision : Nat
  credentials : Option Credentials
  result_max_lines : Nat
  cursor : Option Cursor
  current_request : Nat
  suspend_cursor : Bool
  deriving Repr, DecidableEq

/-- The builder input `InternalWebwareClient` (src/client.rs): the fields
the caller supplies (connection options omitted, as in the client record). -/
structure InternalWebwareClient where
  webware_url : UrlM
  vendor_hash : String
  app_hash : String
  secret : String
  revision : Nat
  credentials : Option Credentials
  result_max_lines : Nat
  deriving Repr, DecidableEq

/-- `From<InternalWebwareClient> for WebwareClient<Unregistered>`
(src/client.rs lines 96-119): note that it sets `credentials: None`,
discarding any credentials supplied to the builder. -/
def fromInternal (client : InternalWebwareClient) : WebwareClient :=
  { webware_url := client.webware_url
    vendor_hash := client.vendor_hash
    app_hash := client.app_hash
    secret := client.secret
    revision := client.revision
    credentials := none
    result_max_lines := client.result_max_lines
    cursor := none
    current_request := 0
    suspend_cursor := false }

/-- `TryFrom<InternalWebwareClient> for WebwareClient<Registered>`
(src/client.rs lines 121-150): fails with `MissingCredentials` when the
builder holds no credentials, otherwise keeps them. -/
def tryFromInternal (client : InternalWebwareClient) :
    Except WWSVCError WebwareClient :=
  if client.credentials.isNone then
    .error .MissingCredentials
  else
    .ok
      { webware_url := client.webware_url
        vendor_hash := client.vendor_hash
        app_hash := client.app_hash
        secret := client.secret
        revision := client.revision
        credentials := client.credentials
        result_max_lines := client.result_max_lines
        cursor := none
        current_request := 0
        suspend_cursor := false }

/-! ## The REGISTER request URL (src/client.rs lines 162-193)

`register()` computes

```
self.webware_url.join("WWSERVICE")?.join("REGISTER")?
    .join(&self.vendor_hash)?.join(&self.app_hash)?
    .join(&self.secret)?.join(&self.revision.to_string())?
```

each `join` resolving a single plain relative segment against the result
of the previous one. -/

/-- The URL `register()` sends its GET to. -/
def registerTargetUrl (c : WebwareClient) : UrlM :=
  ((((((c.webware_url.join "WWSERVICE").join "REGISTER").join
      c.vendor_hash).join c.app_hash).join c.secret).join
      (toString c.revision))

/-! ## IMF-fixdate formatting (the `httpdate` crate's `fmt_http_date`)

`fmt_http_date` renders a `SystemTime` as e.g. `Sun, 06 Nov 1994 08:49:37 GMT`.
Time is modelled as seconds since the Unix epoch. -/

/-- Two-digit zero-padded decimal. -/
def pad2 (n : Nat) : String :=
  if n < 10 then "0" ++ toString n else toString n

/-- Civil date (year, month, day) from days since 1970-01-01
(standard era-based civil-from-days computation). -/
def civilFromDays (days : Nat) : Nat × Nat × Nat :=
  let z := days + 719468
  let era := z / 146097
  let doe := z % 146097
  let yoe := (doe - doe / 1460 + doe / 36524 - doe / 146096) / 365
  let y := yoe + era * 400
  let doy := doe - (365 * yoe + yoe / 4 - yoe / 100)
  let mp := (5 * doy + 2) / 153
  let d := doy - (153 * mp + 2) / 5 + 1
  let m := if mp < 10 then mp + 3 else mp - 9
  (if m ≤ 2 then y + 1 else y, m, d)

/-- Three-letter weekday name; day 0 is Sunday. -/
def weekdayName (w : Nat) : String :=
  (["Sun", "Mon", "Tue", "Wed", "Thu", "Fri", "Sat"].getD w "Sun")

/-- Three-letter month name, 1-based. -/
def monthName (m : Nat) : String :=
  (["Jan", "Feb", "Mar", "Apr", "May", "Jun", "Jul", "Aug", "Sep",
    "Oct", "Nov", "Dec"].getD (m - 1) "Jan")

/-- `httpdate::fmt_http_date`: IMF-fixdate of a Unix timestamp. -/
def fmtHttpDate (secs : Nat) : String :=
  let days := secs / 86400
  let rem := secs % 86400
  let (y, m, d) := civilFromDays days
  let wday := (days + 4) % 7
  weekdayName wday ++ ", " ++ pad2 d ++ " " ++ monthName m ++ " " ++
    toString y ++ " " ++ pad2 (rem / 3600) ++ ":" ++
    pad2 (rem % 3600 / 60) ++ ":" ++ pad2 (rem % 60) ++ " GMT"

/-! ## Windows-1252 encoding (`encoding_rs::WINDOWS_1252.encode`)

The non-streaming `encode` maps each scalar value to its windows-1252
byte; an unmappable character is replaced by a decimal HTML numeric
character reference (this is `encoding_rs`'s lossy convention). -/

/-- The windows-1252 bytes 0x80-0x9F and the scalar values they encode
(WHATWG index), as (scalar, byte) pairs for the encoder direction. -/
def w1252Specials : List (Nat × Nat) :=
  [(0x20AC, 0x80), (0x0081, 0x81), (0x201A, 0x82), (0x0192, 0x83),
   (0x201E, 0x84), (0x2026, 0x85), (0x2020, 0x86), (0x2021, 0x87),
   (0x02C6, 0x88), (0x2030, 0x89), (0x0160, 0x8A), (0x2039, 0x8B),
   (0x0152, 0x8C), (0x008D, 0x8D), (0x017D, 0x8E), (0x008F, 0x8F),
   (0x0090, 0x90), (0x2018, 0x91), (0x2019, 0x92), (0x201C, 0x93),
   (0x201D, 0x94), (0x2022, 0x95), (0x2013, 0x96), (0x2014, 0x97),
   (0x02DC, 0x98), (0x2122, 0x99), (0x0161, 0x9A), (0x203A, 0x9B),
   (0x0153, 0x9C), (0x009D, 0x9D), (0x017E, 0x9E), (0x0178, 0x9F)]

/-- Encode one scalar value to windows-1252 bytes (a numeric character
reference when unmappable). -/
def w1252EncodeScalar (n : Nat) : List Nat :=
  if n < 0x80 then [n]
  else
    match (w1252Specials.find? (fun p => p.1 == n)) with
    | some p => [p.2]
    | none =>
      if 0xA0 ≤ n ∧ n ≤ 0xFF then [n]
      else ("&#" ++ toString n ++ ";").toList.map Char.toNat

/-- `WINDOWS_1252.encode` over a string. -/
def w1252Encode (s : String) : List Nat :=
  s.toList.flatMap (fun c => w1252EncodeScalar c.toNat)

/-! ## MD5 (the `md5` crate), over byte lists, 32-bit words as `Nat % 2^32` -/

/-- Truncate to 32 bits. -/
def mask32 (n : Nat) : Nat := n % 4294967296

/-- 32-bit modular addition. -/
def wadd (a b : Nat) : Nat := (a + b) % 4294967296

/-- 32-bit left rotation. -/
def rotl32 (x s : Nat) : Nat :=
  ((x <<< s) ||| (x >>> (32 - s))) % 4294967296

/-- 32-bit complement. -/
def wnot (x : Nat) : Nat := x ^^^ 0xFFFFFFFF

/-- The 64 MD5 sine constants. -/
def md5K : List Nat :=
  [0xd76aa478, 0xe8c7b756, 0x242070db, 0xc1bdceee,
   0xf57c0faf, 0x4787c62a, 0xa8304613, 0xfd469501,
   0x698098d8, 0x8b44f7af, 0xffff5bb1, 0x895cd7be,
   0x6b901122, 0xfd987193, 0xa679438e, 0x49b40821,
   0xf61e2562, 0xc040b340, 0x265e5a51, 0xe9b6c7aa,
   0xd62f105d, 0x02441453, 0xd8a1e681, 0xe7d3fbc8,
   0x21e1cde6, 0xc33707d6, 0xf4d50d87, 0x455a14ed,
   0xa9e3e905, 0xfcefa3f8, 0x676f02d9, 0x8d2a4c8a,
   0xfffa3942, 0x8771f681, 0x6d9d6122, 0xfde5380c,
   0xa4beea44, 0x4bdecfa9, 0xf6bb4b60, 0xbebfbc70,
   0x289b7ec6, 0xeaa127fa, 0xd4ef3085, 0x04881d05,
   0xd9d4d039, 0xe6db99e5, 0x1fa27cf8, 0xc4ac5665,
   0xf4292244, 0x432aff97, 0xab9423a7, 0xfc93a039,
   0x655b59c3, 0x8f0ccc92, 0xffeff47d, 0x85845dd1,
   0x6fa87e4f, 0xfe2ce6e0, 0xa3014314, 0x4e0811a1,
   0xf7537e82, 0xbd3af235, 0x2ad7d2bb, 0xeb86d391]

/-- The 64 MD5 per-round rotation amounts. -/
def md5S : List Nat :=
  [7, 12, 17, 22, 7, 12, 17, 22, 7, 12, 17, 22, 7, 12, 17, 22,
   5, 9, 14, 20, 5, 9, 14, 20, 5, 9, 14, 20, 5, 9, 14, 20,
   4, 11, 16, 23, 4, 11, 16, 23, 4, 11, 16, 23, 4, 11, 16, 23,
   6, 10, 15, 21, 6, 10, 15, 21, 6, 10, 15, 21, 6, 10, 15, 21]

/-- Little-endian byte rendering of `n`, `k` bytes. -/
def toLEBytes (k n : Nat) : List Nat :=
  match k with
  | 0 => []
  | k + 1 => (n % 256) :: toLEBytes k (n / 256)

/-- One of the 64 MD5 rounds: `m` fetches the chunk words. -/
def md5Round (m : Nat → Nat) (st : Nat × Nat × Nat × Nat) (i : Nat) :
    Nat × Nat × Nat × Nat :=
  let (a, b, c, d) := st
  let fg :=
    if i < 16 then ((b &&& c) ||| (wnot b &&& d), i)
    else if i < 32 then ((b &&& d) ||| (c &&& wnot d), (5 * i + 1) % 16)
    else if i < 48 then (b ^^^ c ^^^ d, (3 * i + 5) % 16)
    else (c ^^^ (b ||| wnot d), (7 * i) % 16)
  let tmp := wadd (wadd (wadd a fg.1) (md5K.getD i 0)) (m fg.2)
  (d, wadd b (rotl32 tmp (md5S.getD i 0)), b, c)

/-- Process one 64-byte chunk, starting from state `st`. -/
def md5Chunk (st : Nat × Nat × Nat × Nat) (chunk : List Nat) :
    Nat × Nat × Nat × Nat :=
  let m : Nat → Nat := fun j =>
    chunk.getD (4 * j) 0 + 256 * chunk.getD (4 * j + 1) 0 +
      65536 * chunk.getD (4 * j + 2) 0 + 16777216 * chunk.getD (4 * j + 3) 0
  let r := (List.range 64).foldl (md5Round m) st
  (wadd st.1 r.1, wadd st.2.1 r.2.1, wadd st.2.2.1 r.2.2.1,
    wadd st.2.2.2 r.2.2.2)

/-- Split a byte list into 64-byte chunks (structural fuel recursion so
that the definition evaluates inside the kernel; the fuel is the list
length, which always suffices). -/
def chunks64Aux : Nat → List Nat → List (List Nat)
  | 0, _ => []
  | _, [] => []
  | fuel + 1, x :: l => ((x :: l).take 64) :: chunks64Aux fuel ((x :: l).drop 64)

/-- Split a byte list into 64-byte chunks. -/
def chunks64 (l : List Nat) : List (List Nat) :=
  chunks64Aux l.length l

/-- MD5 padding: `0x80`, zeros to 56 mod 64, then the 64-bit
little-endian bit length. -/
def md5Pad (msg : List Nat) : List Nat :=
  msg ++ [0x80] ++ List.replicate ((119 - msg.length % 64) % 64) 0 ++
    toLEBytes 8 ((8 * msg.length) % 18446744073709551616)

/-- The 16-byte MD5 digest of a byte list. -/
def md5Bytes (msg : List Nat) : List Nat :=
  let st := (chunks64 (md5Pad msg)).foldl md5Chunk
    (0x67452301, 0xefcdab89, 0x98badcfe, 0x10325476)
  toLEBytes 4 st.1 ++ toLEBytes 4 st.2.1 ++ toLEBytes 4 st.2.2.1 ++
    toLEBytes 4 st.2.2.2

/-- Lowercase hex digit. -/
def hexChar (n : Nat) : Char :=
  "0123456789abcdef".toList.getD n (Char.ofNat 48)

/-- Lowercase hex rendering of a byte list, two digits per byte
(`format \x7b:x\x7d` on an `md5::Digest`). -/
def toLowerHex (bytes : List Nat) : String :=
  String.mk (bytes.flatMap (fun b => [hexChar (b / 16 % 16), hexChar (b % 16)]))

/-! ## `AppHash` (src/app_hash.rs)

`AppHash::new` reads the wall clock; the embedding takes the clock value
(seconds since the Unix epoch) as an explicit argument.  The request id
is a `u32`, so its increment wraps at `2^32`. -/

/-- `AppHash` (src/app_hash.rs). -/
structure AppHash where
  request_id : Nat
  hash : String
  date_formatted : String
  deriving Repr, DecidableEq

/-- `AppHash::new` (src/app_hash.rs lines 15-31): format the current
time as IMF-fixdate, bump the request id, MD5 the windows-1252 encoding
of `app_secret ++ now`, render lowercase hex. -/
def AppHash.new (request_id : Nat) (app_secret : String) (nowSecs : Nat) :
    AppHash :=
  let now := fmtHttpDate nowSecs
  let new_request_id := (request_id + 1) % 4294967296
  let combined := app_secret ++ now
  let cow := w1252Encode combined
  let md5_hash := toLowerHex (md5Bytes cow)
  { request_id := new_request_id, hash := md5_hash, date_formatted := now }

/-! ## Header construction (src/client.rs lines 229-287)

The header `Vec` is collected into a `HashMap<String, String>` and then
extended with the caller's additional headers, so the effective map is
last-occurrence-wins lookup over the concatenated pair list.  The final
`try_into` to a `HeaderMap` can only fail on non-ASCII header data and
is modelled total (all header values produced here are ASCII renderings
of numbers, hashes and dates). -/

/-- Lookup in a header pair list with `HashMap` insert semantics: the
last binding of a key wins. -/
def headerLookup (hs : List (String × String)) (k : String) :
    Option String :=
  (hs.reverse.find? (fun p => p.1 == k)).map (fun p => p.2)

/-- `WebwareClient::get_default_headers` (src/client.rs lines 229-276).
Returns the header pairs (in push order, additional headers last) and
the client with its request counter advanced.  `additional = []` models
the `None` argument. -/
def WebwareClient.get_default_headers (c : WebwareClient)
    (additional : List (String × String)) (nowSecs : Nat) :
    List (String × String) × WebwareClient :=
  let base := [("WWSVC-EXECUTE-MODE", "SYNCHRON"),
               ("WWSVC-ACCEPT-RESULT-TYPE", "JSON")]
  match c.credentials with
  | some credentials =>
      let app_hash := AppHash.new c.current_request credentials.app_id nowSecs
      let c2 := { c with current_request := app_hash.request_id }
      let auth := [("WWSVC-REQID", toString c2.current_request),
                   ("WWSVC-TS", app_hash.date_formatted),
                   ("WWSVC-HASH", app_hash.hash)]
      let cursorPart :=
        if c.suspend_cursor then ([], c.result_max_lines)
        else
          match c.cursor with
          | some cursor =>
              if cursor.closed then ([], c.result_max_lines)
              else ([("WWSVC-CURSOR", cursor.cursor_id)], cursor.max_lines)
          | none => ([], c.result_max_lines)
      (base ++ auth ++ cursorPart.1 ++
        [("WWSVC-ACCEPT-RESULT-MAX-LINES", toString cursorPart.2)] ++
        additional, c2)
  | none =>
      (base ++ [("WWSVC-ACCEPT-RESULT-MAX-LINES",
        toString c.result_max_lines)] ++ additional, c)

/-! ## Network operations with explicit request traces

Each network operation returns the list of HTTP requests it issued; the
server's behaviour is an explicit argument. -/

/-- An outgoing HTTP request, as far as the claims observe it. -/
structure HttpRequest where
  method : String
  url : UrlM
  headers : List (String × String)
  deriving Repr, DecidableEq

/-- `ComResult` (src/responses.rs). -/
structure ComResult where
  status : Nat
  code : String
  info : String
  info2 : Option String
  info3 : Option String
  errno : Option String
  deriving Repr, DecidableEq

/-- `ServicePass` (src/responses.rs). -/
structure ServicePass where
  pass_id : String
  app_id : String
  deriving Repr, DecidableEq

/-- `RegisterResponse` (src/responses.rs). -/
structure RegisterResponse where
  com_result : ComResult
  service_pass : ServicePass
  deriving Repr, DecidableEq

/-- `WebwareClient::register` (src/client.rs lines 162-193).  The
argument `serverResp` is the combined outcome of `send` and the JSON
decode into `RegisterResponse`.  On success every client field is kept
and the credentials are set from the response's service pass. -/
def WebwareClient.register (c : WebwareClient)
    (serverResp : Except WWSVCError RegisterResponse) :
    List HttpRequest × Except WWSVCError WebwareClient :=
  let target_url := registerTargetUrl c
  let req : HttpRequest := ⟨"GET", target_url, []⟩
  match serverResp with
  | .error e => ([req], .error e)
  | .ok response_obj =>
      let creds : Credentials :=
        ⟨response_obj.service_pass.pass_id, response_obj.service_pass.app_id⟩
      ([req], .ok { c with credentials := some creds })

/-- The URL `deregister()` sends its GET to (src/client.rs lines
294-298): `webware_url.join("WWSERVICE")?.join("DEREGISTER")?
.join(&credentials.service_pass)?`. -/
def deregisterTargetUrl (c : WebwareClient) (service_pass : String) : UrlM :=
  ((c.webware_url.join "WWSERVICE").join "DEREGISTER").join service_pass

/-- `WebwareClient::deregister` (src/client.rs lines 290-317).  Mirrors
the source exactly: `self.credentials.take()` *first* (so the header
construction below it runs on a credential-less client), then the GET
whose send outcome (`sendOk`) is discarded with `let _ = ...`.  Returns
the issued requests and the resulting `Unregistered`-state client. -/
def WebwareClient.deregister (c : WebwareClient) (nowSecs : Nat)
    (sendOk : Bool) : List HttpRequest × WebwareClient :=
  let credentials := c.credentials
  let c1 := { c with credentials := none }
  match credentials with
  | some credentials =>
      let target_url := deregisterTargetUrl c1 credentials.service_pass
      let hs := c1.get_default_headers [] nowSecs
      let _ := sendOk
      ([⟨"GET", target_url, hs.1⟩], hs.2)
  | none => ([], c1)

/-- An HTTP response, as far as the claims observe it. -/
structure HttpResponse where
  headers : List (String × String)
  body : String
  deriving Repr, DecidableEq

/-- The `EXECJSON` request body (src/client.rs lines 372-385). -/
structure ExecJsonBody where
  function_name : String
  parameters : List (String × String)
  revision : Nat
  service_pass : String
  app_hash : String
  timestamp : String
  request_id : Nat
  execute_mode : String
  deriving Repr, DecidableEq

/-- `WebwareClient::request_as_response` (src/client.rs lines 340-411).
Returns the issued requests, the mutated client (as `&mut self` leaves
it), and the outcome.  `serverResp` is the transport outcome of `send`. -/
def WebwareClient.request_as_response (c : WebwareClient) (method : String)
    (function : String) (version : Nat) (parameters : List (String × String))
    (additional : List (String × String)) (nowSecs : Nat)
    (serverResp : Except WWSVCError HttpResponse) :
    List HttpRequest × WebwareClient ×
      Except WWSVCError (HttpResponse × ExecJsonBody) :=
  match c.credentials with
  | none => ([], c, .error .NotAuthenticated)
  | some credentials =>
      let target_url := c.webware_url.join "EXECJSON"
      let hs := c.get_default_headers additional nowSecs
      let c1 := hs.2
      let app_hash := (headerLookup hs.1 "WWSVC-HASH").getD ""
      let timestamp := (headerLookup hs.1 "WWSVC-TS").getD ""
      let body : ExecJsonBody :=
        { function_name := function
          parameters := parameters
          revision := version
          service_pass := credentials.service_pass
          app_hash := app_hash
          timestamp := timestamp
          request_id := c1.current_request
          execute_mode := "SYNCHRON" }
      let req : HttpRequest := ⟨method, target_url, hs.1⟩
      match serverResp with
      | .error e => ([req], c1, .error e)
      | .ok response =>
          let c2 :=
            if c1.suspend_cursor then c1
            else
              match c1.cursor with
              | some cursor =>
                  match headerLookup response.headers "WWSVC-CURSOR" with
                  | some newId =>
                      if cursor.closed then c1
                      else { c1 with cursor := some (cursor.set_cursor_id newId) }
                  | none => c1
              | none => c1
          ([req], c2, .ok (response, body))

/-- `WebwareClient::request_generic` (src/client.rs lines 416-432):
delegates to `request_as_response`, then decodes the body; `decode`
stands for the external `serde_json` collaborator. -/
def WebwareClient.request_generic {T : Type} (c : WebwareClient)
    (method : String) (function : String) (version : Nat)
    (parameters : List (String × String))
    (additional : List (String × String)) (nowSecs : Nat)
    (serverResp : Except WWSVCError HttpResponse)
    (decode : String → Except WWSVCError T) :
    List HttpRequest × WebwareClient × Except WWSVCError T :=
  match c.request_as_response method function version parameters additional
      nowSecs serverResp with
  | (reqs, c1, .error e) => (reqs, c1, .error e)
  | (reqs, c1, .ok (response, _)) =>
      match decode response.body with
      | .error e => (reqs, c1, .error e)
      | .ok t => (reqs, c1, .ok t)

/-- `WebwareClient::create_cursor` (src/client.rs lines 198-214):
transition to the `OpenCursor` state with a fresh cursor, all other
fields preserved. -/
def WebwareClient.create_cursor (c : WebwareClient) (max_lines : Nat) :
    WebwareClient :=
  { c with cursor := some (Cursor.new max_lines) }

/-- `WebwareClient::suspend_cursor` (src/client.rs lines 437-439). -/
def WebwareClient.suspendCursorOp (c : WebwareClient) : WebwareClient :=
  { c with suspend_cursor := true }

/-- `WebwareClient::resume_cursor` (src/client.rs lines 442-444). -/
def WebwareClient.resumeCursorOp (c : WebwareClient) : WebwareClient :=
  { c with suspend_cursor := false }

/-- `WebwareClient::set_result_max_lines` (src/client.rs lines 222-224). -/
def WebwareClient.set_result_max_lines (c : WebwareClient)
    (max_lines : Nat) : WebwareClient :=
  { c with result_max_lines := max_lines }

/-! ## Cursor-driven pagination (src/cursor_response.rs)

`CursoredResponse` drives repeated requests through a shared client.
The client revision it calls into (`has_cursor`, `create_cursor`,
`close_cursor`, `cursor_closed` behind an async lock) is newer than the
`client.rs` in the tree; the cursor operations missing from src/ are
modelled from the spec below and marked as such.  The server is modelled
as a script: a list of decoded pages, one consumed per request. -/

/-- `WebwareClient::has_cursor`.  Modelled from the spec: absent from
src/ (only `cursor_response.rs` calls it); §4.5 step 2 — whether the
session already holds a cursor. -/
def WebwareClient.has_cursor (c : WebwareClient) : Bool :=
  c.cursor.isSome

/-- `WebwareClient::close_cursor`.  Modelled from the spec: absent from
src/; §3 — a cursor is closed by giving it the `"CLOSED"` sentinel id
(a defensive completion signal even when the server did not send it). -/
def WebwareClient.close_cursor (c : WebwareClient) : WebwareClient :=
  { c with cursor := c.cursor.map (fun cur => cur.set_cursor_id "CLOSED") }

/-- `WebwareClient::cursor_closed`.  Modelled from the spec: the
shared-client variant is absent from src/; §4.2 — true iff the session's
cursor id equals the closed sentinel (`Cursor::closed`,
src/cursor.rs). -/
def WebwareClient.cursorClosedQ (c : WebwareClient) : Bool :=
  match c.cursor with
  | some cur => cur.closed
  | none => false

/-- One decoded page of a paginated response: the `COMRESULT`, the
extracted item list (`HasList::into_items`), and the `WWSVC-CURSOR`
response header, if any. -/
structure Page (T : Type) where
  comresult : ComResult
  items : Option (List T)
  cursorHeader : Option String
  deriving Repr, DecidableEq

/-- The paginator state of `CursoredResponse` (src/cursor_response.rs):
the request recipe and the `finished` flag. -/
structure CursoredResponse where
  method : String
  function : String
  version : Nat
  page_size : Nat
  finished : Bool
  deriving Repr, DecidableEq

/-- `CursoredResponse::new` (src/cursor_response.rs lines 149-167):
`finished` starts `false`. -/
def CursoredResponse.mkNew (method function : String)
    (version page_size : Nat) : CursoredResponse :=
  { method := method, function := function, version := version
    page_size := page_size, finished := false }

/-- The client-state effect of one `request_generic` call issued by the
paginator: the request counter advances (header construction), and the
cursor advances from the response's `WWSVC-CURSOR` header exactly as in
`request_as_response` (src/client.rs lines 394-408). -/
def requestEffect {T : Type} (c : WebwareClient) (page : Page T) :
    WebwareClient :=
  let c1 := { c with current_request := (c.current_request + 1) % 4294967296 }
  if c1.suspend_cursor then c1
  else
    match c1.cursor, page.cursorHeader with
    | some cursor, some newId =>
        if cursor.closed then c1
        else { c1 with cursor := some (cursor.set_cursor_id newId) }
    | _, _ => c1

/-- `ItemsWithComResult` (src/cursor_response.rs lines 50-55). -/
structure ItemsWithComResult (T : Type) where
  items : Option (List T)
  comresult : ComResult
  deriving Repr, DecidableEq

/-- `CursoredResponse::next` (src/cursor_response.rs lines 172-219) as a
step function.  Returns the call's outcome, the new paginator and client
states, the rest of the server script, and the number of network
requests the call made. -/
def CursoredResponse.next {T : Type} (p : CursoredResponse)
    (c : WebwareClient) (script : List (Page T)) :
    Except WWSVCError (Option (List T)) × CursoredResponse ×
      WebwareClient × List (Page T) × Nat :=
  if p.finished then (.ok none, p, c, script, 0)
  else
    let c1 := if c.has_cursor then c else c.create_cursor p.page_size
    match script with
    | [] => (.error .ReqwestError, p, c1, [], 1)
    | page :: rest =>
        let c2 := requestEffect c1 page
        let pc :=
          if c2.cursorClosedQ then ({ p with finished := true }, c2.close_cursor)
          else (p, c2)
        match page.items with
        | some [] =>
            (.ok none, { pc.1 with finished := true }, pc.2.close_cursor,
              rest, 1)
        | some l => (.ok (some l), pc.1, pc.2, rest, 1)
        | none =>
            (.ok none, { pc.1 with finished := true }, pc.2.close_cursor,
              rest, 1)

/-- `CursoredResponse::next_with_comresult` (src/cursor_response.rs
lines 92-140): same control flow as `next`, but the empty-list and
missing-list terminations still hand back the page's `COMRESULT`. -/
def CursoredResponse.next_with_comresult {T : Type} (p : CursoredResponse)
    (c : WebwareClient) (script : List (Page T)) :
    Except WWSVCError (Option (ItemsWithComResult T)) × CursoredResponse ×
      WebwareClient × List (Page T) × Nat :=
  if p.finished then (.ok none, p, c, script, 0)
  else
    let c1 := if c.has_cursor then c else c.create_cursor p.page_size
    match script with
    | [] => (.error .ReqwestError, p, c1, [], 1)
    | page :: rest =>
        let c2 := requestEffect c1 page
        let pc :=
          if c2.cursorClosedQ then ({ p with finished := true }, c2.close_cursor)
          else (p, c2)
        match page.items with
        | some [] =>
            (.ok (some ⟨none, page.comresult⟩), { pc.1 with finished := true },
              pc.2.close_cursor, rest, 1)
        | some l => (.ok (some ⟨some l, page.comresult⟩), pc.1, pc.2, rest, 1)
        | none =>
            (.ok (some ⟨none, page.comresult⟩), { pc.1 with finished := true },
              pc.2.close_cursor, rest, 1)

/-- Fuel-driven loop body of `collect_all`; the fuel only needs to cover
the script length plus one, since every continuing step consumes one
script entry. -/
def collectAllAux {T : Type} : Nat → CursoredResponse → WebwareClient →
    List (Page T) → Except WWSVCError (List T)
  | 0, _, _, _ => .ok []
  | fuel + 1, p, c, script =>
      match p.next c script with
      | (.error e, _, _, _, _) => .error e
      | (.ok none, _, _, _, _) => .ok []
      | (.ok (some l), p2, c2, rest, _) =>
          match collectAllAux fuel p2 c2 rest with
          | .error e => .error e
          | .ok tail => .ok (l ++ tail)

/-- `CursoredResponse::collect_all` (src/cursor_response.rs lines
222-228): drain `next()` until it yields nothing, concatenating
batches. -/
def CursoredResponse.collect_all {T : Type} (p : CursoredResponse)
    (c : WebwareClient) (script : List (Page T)) :
    Except WWSVCError (List T) :=
  collectAllAux (script.length + 1) p c script

/-- `CursoredResponse::is_finished` (src/cursor_response.rs lines
231-233). -/
def CursoredResponse.is_finished (p : CursoredResponse) : Bool :=
  p.finished

/-! ## Concrete clients used to evaluate the code at failing inputs -/

/-- A builder input with vendor hash `v`, app hash `a`, secret `s`,
revision `1` and no credentials, against the default base `/WWSVC/`. -/
def sampleInternal : InternalWebwareClient :=
  ⟨builderBaseUrl, "v", "a", "s", 1, none, 1000⟩

/-- The unregistered client built from `sampleInternal`. -/
def sampleClient : WebwareClient := fromInternal sampleInternal

/-- `sampleClient` holding credentials `(p, aid)`, as a registered
session would. -/
def sampleRegistered : WebwareClient :=
  { sampleClient with credentials := some ⟨"p", "aid"⟩ }

/-- A builder input that pre-supplies credentials `(p1, a1)`. -/
def sampleInternalWithCreds : InternalWebwareClient :=
  ⟨builderBaseUrl, "v", "a", "s", 1, some ⟨"p1", "a1"⟩, 1000⟩

/-- A register response carrying service pass `(sp, sa)`. -/
def sampleRegisterResponse : RegisterResponse :=
  ⟨⟨200, "OK", "", none, none, none⟩, ⟨"sp", "sa"⟩⟩

/-! ## Claims -/

/-- C1.  The claim says `register()` performs its GET against a URL
whose path ends with `/WWSERVICE/REGISTER/<vendor>/<app>/<secret>/<rev>`.
It does not: each `Url::join` with a slash-less segment replaces the
previous path's final segment (RFC 3986 merge), so for the client with
vendor `v`, app hash `a`, secret `s`, revision `1` the GET goes to path
`/WWSVC/1` — only the revision survives.  This contradicts the code's
own comment (the intended path is spelled out at src/client.rs line
164), the earlier revision `async_client.rs` (which string-concatenates
the full path), and the spec. -/
theorem c1_register_url_at_failing_input :
    (registerTargetUrl sampleClient).pathString = "/WWSVC/1" ∧
    ((registerTargetUrl sampleClient).pathString.endsWith
      "/WWSERVICE/REGISTER/v/a/s/1") = false ∧
    (sampleClient.register (.ok sampleRegisterResponse)).1 =
      [⟨"GET", ⟨["WWSVC", "1"]⟩, []⟩] := by
  decide

/-- C2.  The claim says `deregister()` sends its GET to the
`WWSERVICE/DEREGISTER/<service_pass>` path carrying the signed
`WWSVC-REQID` / `WWSVC-TS` / `WWSVC-HASH` headers.  In the code,
`self.credentials.take()` runs *before* `get_default_headers()`, so the
header builder sees a credential-less client and omits all three
authentication headers; and the `Url::join` chain collapses the path to
`/WWSVC/<service_pass>`.  The earlier revision `async_client.rs` builds
the headers while the credentials are still present, and the spec calls
for signed headers, so the code is the slip.  Evaluated at the
registered client with service pass `p`: exactly one GET is issued, to
path `/WWSVC/p`, with none of the three signed headers. -/
theorem c2_deregister_at_failing_input :
    ((sampleRegistered.deregister 784887151 true).1 =
      [⟨"GET", ⟨["WWSVC", "p"]⟩,
        [("WWSVC-EXECUTE-MODE", "SYNCHRON"),
         ("WWSVC-ACCEPT-RESULT-TYPE", "JSON"),
         ("WWSVC-ACCEPT-RESULT-MAX-LINES", "1000")]⟩]) ∧
    (∀ req ∈ (sampleRegistered.deregister 784887151 true).1,
      headerLookup req.headers "WWSVC-REQID" = none ∧
      headerLookup req.headers "WWSVC-TS" = none ∧
      headerLookup req.headers "WWSVC-HASH" = none ∧
      req.url.pathString.endsWith "/WWSERVICE/DEREGISTER/p" = false) := by
  decide

/-- C3.  The claim says that with credentials supplied at construction,
`register()` immediately yields an authenticated session holding exactly
those credentials, with zero network calls.  In the code,
`From<InternalWebwareClient> for WebwareClient<Unregistered>` discards
the supplied credentials (`credentials: None`, src/client.rs line 110)
and `register()` unconditionally performs its GET; whatever credentials
result come from the server's response, not from construction.  The
repository's own integration test (tests/client.rs) builds the client
with pre-supplied credentials and expects `register()` to succeed with
them, and the spec states the short-circuit twice, so the code is the
slip.  Evaluated at the builder input carrying credentials `(p1, a1)`:
the built client's credentials are `None`, `register()` issues one GET,
and its resulting credentials are the server's `(sp, sa)`, not the
supplied `(p1, a1)`. -/
theorem c3_register_with_credentials_at_failing_input :
    (fromInternal sampleInternalWithCreds).credentials = none ∧
    ((fromInternal sampleInternalWithCreds).register
      (.ok sampleRegisterResponse)).1.length = 1 ∧
    ((fromInternal sampleInternalWithCreds).register
      (.ok sampleRegisterResponse)).2.toOption =
      some { fromInternal sampleInternalWithCreds with
              credentials := some ⟨"sp", "sa"⟩ } ∧
    some (Credentials.mk "sp" "sa") ≠ some (Credentials.mk "p1" "a1") := by
  decide

/-- C4.  Signing: `AppHash::new(n, a)` returns request id `n + 1`, the
IMF-fixdate rendering of the wall clock as `date_formatted`, and the
lowercase-hex MD5 of the windows-1252 encoding of
`a ++ date_formatted`; and `get_default_headers` reuses that very
`date_formatted` string verbatim as the `WWSVC-TS` header value. -/
theorem c4_app_hash_signing (n : Nat) (a : String) (t : Nat)
    (c : WebwareClient) (creds : Credentials)
    (h1 : n + 1 < 4294967296) (h2 : c.credentials = some creds) :
    (AppHash.new n a t).request_id = n + 1 ∧
    (AppHash.new n a t).date_formatted = fmtHttpDate t ∧
    (AppHash.new n a t).hash =
      toLowerHex (md5Bytes (w1252Encode
        (a ++ (AppHash.new n a t).date_formatted))) ∧
    headerLookup (c.get_default_headers [] t).1 "WWSVC-TS" =
      some (AppHash.new c.current_request creds.app_id t).date_formatted := by
  refine ⟨?_, rfl, rfl, ?_⟩
  · simpa [AppHash.new] using Nat.mod_eq_of_lt h1
  · rcases hcur : c.cursor with _ | cur <;>
      cases hsusp : c.suspend_cursor <;>
      simp [WebwareClient.get_default_headers, h2, hcur, hsusp,
        headerLookup] <;>
      cases hcl : cur.closed <;> simp [headerLookup]

/-- C4 witness: the theorem applied at request id 0, credential string
`a1B` and the clock value 784887151 (`Tue, 15 Nov 1994 08:12:31 GMT`),
on the registered sample client. -/
theorem c4_witness :
    0 + 1 < 4294967296 ∧
    sampleRegistered.credentials = some ⟨"p", "aid"⟩ ∧
    ((AppHash.new 0 "a1B" 784887151).request_id = 0 + 1 ∧
     (AppHash.new 0 "a1B" 784887151).date_formatted = fmtHttpDate 784887151 ∧
     (AppHash.new 0 "a1B" 784887151).hash =
       toLowerHex (md5Bytes (w1252Encode
         ("a1B" ++ (AppHash.new 0 "a1B" 784887151).date_formatted))) ∧
     headerLookup (sampleRegistered.get_default_headers [] 784887151).1
         "WWSVC-TS" =
       some (AppHash.new sampleRegistered.current_request "aid"
         784887151).date_formatted) :=
  ⟨by decide, by decide,
    c4_app_hash_signing 0 "a1B" 784887151 sampleRegistered ⟨"p", "aid"⟩
      (by decide) (by decide)⟩

/-- C5.  Cursor headers: with credentials present, the header set from
`get_default_headers` carries `WWSVC-CURSOR = cursor_id` and
`WWSVC-ACCEPT-RESULT-MAX-LINES = cursor.max_lines` exactly when the
session holds an open (not closed) cursor and cursor use is not
suspended; in every other case there is no `WWSVC-CURSOR` header and
`WWSVC-ACCEPT-RESULT-MAX-LINES` is the session default. -/
theorem c5_cursor_header_iff (c : WebwareClient) (creds : Credentials)
    (t : Nat) (h : c.credentials = some creds) :
    ((∃ cur, c.cursor = some cur ∧ cur.closed = false) ∧
        c.suspend_cursor = false →
      ∀ cur, c.cursor = some cur →
        headerLookup (c.get_default_headers [] t).1 "WWSVC-CURSOR" =
          some cur.cursor_id ∧
        headerLookup (c.get_default_headers [] t).1
          "WWSVC-ACCEPT-RESULT-MAX-LINES" = some (toString cur.max_lines)) ∧
    (¬((∃ cur, c.cursor = some cur ∧ cur.closed = false) ∧
        c.suspend_cursor = false) →
      headerLookup (c.get_default_headers [] t).1 "WWSVC-CURSOR" = none ∧
      headerLookup (c.get_default_headers [] t).1
        "WWSVC-ACCEPT-RESULT-MAX-LINES" =
          some (toString c.result_max_lines)) := by
  constructor
  · rintro ⟨⟨cur0, hc0, hcl0⟩, hs⟩ cur hc
    rw [hc0] at hc
    injection hc with hc
    subst hc
    simp [WebwareClient.get_default_headers, h, hc0, hcl0, hs, headerLookup]
  · intro hn
    rcases hcur : c.cursor with _ | cur
    · cases hsusp : c.suspend_cursor <;>
        simp [WebwareClient.get_default_headers, h, hcur, hsusp, headerLookup]
    · cases hsusp : c.suspend_cursor
      · cases hcl : cur.closed
        · exact absurd ⟨⟨cur, hcur, hcl⟩, hsusp⟩ hn
        · simp [WebwareClient.get_default_headers, h, hcur, hsusp, hcl,
            headerLookup]
      · simp [WebwareClient.get_default_headers, h, hcur, hsusp, headerLookup]

/-- C5 witness: the theorem applied to the registered sample client
equipped with the open cursor `(tok1, 500)`. -/
theorem c5_witness :
    ({ sampleRegistered with cursor := some ⟨"tok1", 500⟩ } :
        WebwareClient).credentials = some ⟨"p", "aid"⟩ ∧
    (((∃ cur, ({ sampleRegistered with cursor := some ⟨"tok1", 500⟩ } :
          WebwareClient).cursor = some cur ∧ cur.closed = false) ∧
        ({ sampleRegistered with cursor := some ⟨"tok1", 500⟩ } :
          WebwareClient).suspend_cursor = false →
      ∀ cur, ({ sampleRegistered with cursor := some ⟨"tok1", 500⟩ } :
          WebwareClient).cursor = some cur →
        headerLookup (({ sampleRegistered with cursor := some ⟨"tok1", 500⟩ } :
            WebwareClient).get_default_headers [] 784887151).1
            "WWSVC-CURSOR" = some cur.cursor_id ∧
        headerLookup (({ sampleRegistered with cursor := some ⟨"tok1", 500⟩ } :
            WebwareClient).get_default_headers [] 784887151).1
          "WWSVC-ACCEPT-RESULT-MAX-LINES" = some (toString cur.max_lines)) ∧
    (¬((∃ cur, ({ sampleRegistered with cursor := some ⟨"tok1", 500⟩ } :
          WebwareClient).cursor = some cur ∧ cur.closed = false) ∧
        ({ sampleRegistered with cursor := some ⟨"tok1", 500⟩ } :
          WebwareClient).suspend_cursor = false) →
      headerLookup (({ sampleRegistered with cursor := some ⟨"tok1", 500⟩ } :
          WebwareClient).get_default_headers [] 784887151).1
          "WWSVC-CURSOR" = none ∧
      headerLookup (({ sampleRegistered with cursor := some ⟨"tok1", 500⟩ } :
          WebwareClient).get_default_headers [] 784887151).1
        "WWSVC-ACCEPT-RESULT-MAX-LINES" =
          some (toString ({ sampleRegistered with
            cursor := some ⟨"tok1", 500⟩ } :
              WebwareClient).result_max_lines))) :=
  ⟨by decide,
    c5_cursor_header_iff
      { sampleRegistered with cursor := some ⟨"tok1", 500⟩ }
      ⟨"p", "aid"⟩ 784887151 (by decide)⟩

/-- C6.  A session without credentials fails every signed-request
attempt (`request_as_response`, and `request_generic` built on it) with
`NotAuthenticated`, issuing zero HTTP requests and leaving the client
untouched. -/
theorem c6_unauthenticated_rejected_before_network {T : Type}
    (c : WebwareClient) (method function : String) (version : Nat)
    (params additional : List (String × String)) (t : Nat)
    (resp : Except WWSVCError HttpResponse)
    (decode : String → Except WWSVCError T)
    (h : c.credentials = none) :
    c.request_as_response method function version params additional t resp =
      ([], c, .error .NotAuthenticated) ∧
    c.request_generic method function version params additional t resp
        decode = ([], c, .error .NotAuthenticated) := by
  constructor <;>
    simp [WebwareClient.request_as_response, WebwareClient.request_generic, h]

/-- C6 witness: the theorem applied to the credential-less sample
client. -/
theorem c6_witness :
    sampleClient.credentials = none ∧
    (sampleClient.request_as_response "PUT" "ARTIKEL.GET" 1 [] [] 784887151
        (.error .ReqwestError) = ([], sampleClient, .error .NotAuthenticated) ∧
     sampleClient.request_generic "PUT" "ARTIKEL.GET" 1 [] [] 784887151
        (.error .ReqwestError) (fun _ => (.ok 0 : Except WWSVCError Nat)) =
       ([], sampleClient, .error .NotAuthenticated)) :=
  ⟨by decide,
    c6_unauthenticated_rejected_before_network sampleClient "PUT"
      "ARTIKEL.GET" 1 [] [] 784887151 (.error .ReqwestError)
      (fun _ => .ok 0) (by decide)⟩

/-- C7.  `deregister()` always clears the session's credentials and
hands back the unregistered client, and its result is independent of
whether the transport send of the DEREGISTER request succeeds — the
send's outcome is discarded (`let _ = ... .send().await`), never
propagated. -/
theorem c7_deregister_clears_and_swallows (c : WebwareClient) (t : Nat)
    (sendOk : Bool) :
    (c.deregister t sendOk).2.credentials = none ∧
    c.deregister t sendOk = c.deregister t true := by
  refine ⟨?_, rfl⟩
  rcases h : c.credentials with _ | creds <;>
    simp [WebwareClient.deregister, h, WebwareClient.get_default_headers]

/-- C9.  Once a `CursoredResponse` is finished, both `next()` and
`next_with_comresult()` return `Ok(None)` immediately, leave every piece
of state (paginator, client, server script) unchanged, and make zero
network requests: the finished state is terminal and idempotent. -/
theorem c9_finished_terminal {T : Type} (p : CursoredResponse)
    (c : WebwareClient) (script : List (Page T)) (h : p.finished = true) :
    p.next c script = (.ok none, p, c, script, 0) ∧
    p.next_with_comresult c script = (.ok none, p, c, script, 0) := by
  constructor <;>
    simp [CursoredResponse.next, CursoredResponse.next_with_comresult, h]

/-- C9 witness: the theorem applied to a finished paginator over a
nonempty script. -/
theorem c9_witness :
    ({ CursoredResponse.mkNew "PUT" "ARTIKEL.GET" 1 500 with
        finished := true } : CursoredResponse).finished = true ∧
    (({ CursoredResponse.mkNew "PUT" "ARTIKEL.GET" 1 500 with
        finished := true } : CursoredResponse).next sampleRegistered
        [(⟨⟨200, "OK", "", none, none, none⟩, some [1, 2], some "tok1"⟩ :
          Page Nat)] =
      (.ok none,
        { CursoredResponse.mkNew "PUT" "ARTIKEL.GET" 1 500 with
            finished := true }, sampleRegistered,
        [⟨⟨200, "OK", "", none, none, none⟩, some [1, 2], some "tok1"⟩], 0) ∧
     ({ CursoredResponse.mkNew "PUT" "ARTIKEL.GET" 1 500 with
        finished := true } : CursoredResponse).next_with_comresult
        sampleRegistered
        [(⟨⟨200, "OK", "", none, none, none⟩, some [1, 2], some "tok1"⟩ :
          Page Nat)] =
      (.ok none,
        { CursoredResponse.mkNew "PUT" "ARTIKEL.GET" 1 500 with
            finished := true }, sampleRegistered,
        [⟨⟨200, "OK", "", none, none, none⟩, some [1, 2], some "tok1"⟩], 0)) :=
  ⟨rfl,
    c9_finished_terminal
      { CursoredResponse.mkNew "PUT" "ARTIKEL.GET" 1 500 with
          finished := true }
      sampleRegistered
      [⟨⟨200, "OK", "", none, none, none⟩, some [1, 2], some "tok1"⟩] rfl⟩

/-! ### Helper lemmas for the pagination claims -/

/-- Closing the session cursor marks it closed whenever one is held. -/
lemma close_cursor_closedQ (c : WebwareClient) (h : c.cursor.isSome = true) :
    c.close_cursor.cursorClosedQ = true := by
  rcases hc : c.cursor with _ | cur
  · rw [hc] at h; simp at h
  · simp [WebwareClient.close_cursor, WebwareClient.cursorClosedQ, hc,
      Cursor.set_cursor_id, Cursor.closed]

/-- Closing the cursor does not change whether one is held. -/
lemma close_cursor_isSome (c : WebwareClient) :
    c.close_cursor.cursor.isSome = c.cursor.isSome := by
  rcases hc : c.cursor with _ | cur <;> simp [WebwareClient.close_cursor, hc]

/-- One request's client effect does not change whether a cursor is
held. -/
lemma requestEffect_cursor_isSome {T : Type} (c : WebwareClient)
    (page : Page T) :
    (requestEffect c page).cursor.isSome = c.cursor.isSome := by
  rcases hc : c.cursor with _ | cur <;>
    rcases hh : page.cursorHeader with _ | s <;>
    cases hs : c.suspend_cursor <;>
    simp [requestEffect, hc, hh, hs] <;>
    cases hcl : cur.closed <;> simp [hcl]

/-- After the paginator's lazy cursor creation a cursor is always
held. -/
lemma created_cursor_isSome (c : WebwareClient) (ps : Nat) :
    (if c.has_cursor then c else c.create_cursor ps).cursor.isSome = true := by
  rcases hc : c.cursor with _ | cur <;>
    simp [WebwareClient.has_cursor, WebwareClient.create_cursor, hc, Cursor.new]

/-- After the lazy creation, a session whose cursor was absent or open
holds an open cursor. -/
lemma created_cursor_open (c : WebwareClient) (ps : Nat)
    (hI : c.cursor = none ∨ ∃ cur, c.cursor = some cur ∧ cur.closed = false) :
    ∃ cur, (if c.has_cursor then c else c.create_cursor ps).cursor =
      some cur ∧ cur.closed = false := by
  rcases hI with hc | ⟨cur, hc, hcl⟩
  · refine ⟨⟨"CREATE", ps⟩, ?_, ?_⟩
    · simp [WebwareClient.has_cursor, WebwareClient.create_cursor, hc,
        Cursor.new]
    · simp [Cursor.closed]
  · exact ⟨cur, by simp [WebwareClient.has_cursor, hc], hcl⟩

/-- A request whose response carries no `CLOSED` cursor header keeps an
open cursor open. -/
lemma requestEffect_open {T : Type} (c : WebwareClient) (page : Page T)
    (cur : Cursor) (hc : c.cursor = some cur) (hcl : cur.closed = false)
    (hh : page.cursorHeader ≠ some "CLOSED") :
    ∃ cur2, (requestEffect c page).cursor = some cur2 ∧
      cur2.closed = false := by
  have hcl2 : cur.cursor_id ≠ "CLOSED" := by simpa [Cursor.closed] using hcl
  cases hs : c.suspend_cursor
  · rcases hh2 : page.cursorHeader with _ | s
    · exact ⟨cur, by simp [requestEffect, hc, hh2, hs], hcl⟩
    · have hs2 : s ≠ "CLOSED" := by rintro rfl; exact hh hh2
      refine ⟨cur.set_cursor_id s, ?_, ?_⟩
      · simp [requestEffect, hc, hh2, hs, hcl, Cursor.set_cursor_id]
      · simp [Cursor.closed, Cursor.set_cursor_id, hs2]
  · exact ⟨cur, by simp [requestEffect, hc, hs], hcl⟩

/-- Combined step: lazy creation followed by one non-closing request
leaves the session with an open cursor. -/
lemma step_cursor_open {T : Type} (c : WebwareClient) (ps : Nat)
    (page : Page T)
    (hI : c.cursor = none ∨ ∃ cur, c.cursor = some cur ∧ cur.closed = false)
    (hh : page.cursorHeader ≠ some "CLOSED") :
    ∃ cur2, (requestEffect (if c.has_cursor then c else c.create_cursor ps)
        page).cursor = some cur2 ∧ cur2.closed = false := by
  obtain ⟨cur, hc1, hcl⟩ := created_cursor_open c ps hI
  exact requestEffect_open _ page cur hc1 hcl hh

/-- One-step unfolding of the `collect_all` loop body. -/
lemma collectAllAux_succ {T : Type} (fuel : Nat) (p : CursoredResponse)
    (c : WebwareClient) (script : List (Page T)) :
    collectAllAux (fuel + 1) p c script =
      match p.next c script with
      | (.error e, _, _, _, _) => .error e
      | (.ok none, _, _, _, _) => .ok []
      | (.ok (some l), p2, c2, rest, _) =>
          match collectAllAux fuel p2 c2 rest with
          | .error e => .error e
          | .ok tail => .ok (l ++ tail) := rfl

/-- Draining a script of non-empty, non-closing pages followed by a
terminating page returns exactly the concatenation of the good pages'
item lists. -/
lemma collectAll_good_aux {T : Type} (last : Page T)
    (hlast : last.items = none ∨ last.items = some []) (p : CursoredResponse)
    (hfin : p.finished = false) :
    ∀ (good : List (Page T)) (c : WebwareClient),
      (c.cursor = none ∨ ∃ cur, c.cursor = some cur ∧ cur.closed = false) →
      (∀ pg ∈ good, pg.items ≠ none ∧ pg.items ≠ some [] ∧
        pg.cursorHeader ≠ some "CLOSED") →
      collectAllAux ((good ++ [last]).length + 1) p c (good ++ [last]) =
        .ok (good.flatMap (fun pg => pg.items.getD [])) := by
  intro good
  induction good with
  | nil =>
      intro c _ _
      rcases hlast with h | h <;>
        simp [collectAllAux, CursoredResponse.next, hfin, h]
  | cons pg good2 ih =>
      intro c hI hgood
      obtain ⟨hpg1, hpg2, hpg3⟩ := hgood pg (List.mem_cons_self pg good2)
      rcases hpgi : pg.items with _ | l
      · exact absurd hpgi hpg1
      rcases l with _ | ⟨x, xs⟩
      · exact absurd hpgi hpg2
      obtain ⟨cur2, hc2, hcl2⟩ := step_cursor_open c p.page_size pg hI hpg3
      have hq : (requestEffect
          (if c.has_cursor then c else c.create_cursor p.page_size)
          pg).cursorClosedQ = false := by
        simp [WebwareClient.cursorClosedQ, hc2, hcl2]
      have key : p.next c ((pg :: good2) ++ [last]) =
          (.ok (some (x :: xs)), p,
            requestEffect
              (if c.has_cursor then c else c.create_cursor p.page_size) pg,
            good2 ++ [last], 1) := by
        simp [CursoredResponse.next, hfin, hpgi, hq]
      have hrec := ih (requestEffect
          (if c.has_cursor then c else c.create_cursor p.page_size) pg)
        (Or.inr ⟨cur2, hc2, hcl2⟩)
        (fun q hq2 => hgood q (List.mem_cons_of_mem pg hq2))
      have hlen : ((pg :: good2) ++ [last]).length =
          (good2 ++ [last]).length + 1 := by simp
      rw [hlen, collectAllAux_succ, key]
      simp only [hrec]
      simp [hpgi]

/-- What one `next()` call does on a page whose item list is empty or
missing: returns `Ok(None)`, marks the paginator finished, leaves the
session's cursor closed, consumes one script entry with one request. -/
lemma next_empty_page {T : Type} (p : CursoredResponse) (c : WebwareClient)
    (page : Page T) (rest : List (Page T))
    (hfin : p.finished = false)
    (hempty : page.items = none ∨ page.items = some []) :
    ∃ cfinal : WebwareClient,
      p.next c (page :: rest) =
        (.ok none, { p with finished := true }, cfinal, rest, 1) ∧
      cfinal.cursorClosedQ = true := by
  have hsome : (requestEffect
      (if c.has_cursor then c else c.create_cursor p.page_size)
      page).cursor.isSome = true := by
    rw [requestEffect_cursor_isSome]
    exact created_cursor_isSome c p.page_size
  by_cases hq : (requestEffect
      (if c.has_cursor then c else c.create_cursor p.page_size)
      page).cursorClosedQ
  · refine ⟨(requestEffect
        (if c.has_cursor then c else c.create_cursor p.page_size)
        page).close_cursor.close_cursor, ?_, ?_⟩
    · rcases hempty with h | h <;> simp [CursoredResponse.next, hfin, h, hq]
    · exact close_cursor_closedQ _ (by rw [close_cursor_isSome]; exact hsome)
  · refine ⟨(requestEffect
        (if c.has_cursor then c else c.create_cursor p.page_size)
        page).close_cursor, ?_, ?_⟩
    · rcases hempty with h | h <;> simp [CursoredResponse.next, hfin, h, hq]
    · exact close_cursor_closedQ _ hsome

/-- C8.  A `next()` call whose decoded page has an absent or empty item
list terminates pagination: it returns `Ok(None)` (no error), marks the
paginator finished, closes the session's cursor, and made exactly the
one request; and `collect_all` over any run of non-empty pages followed
by such a terminating page still returns every previously collected
item. -/
theorem c8_empty_or_missing_list_terminates {T : Type}
    (p : CursoredResponse) (c : WebwareClient) (cr : ComResult)
    (hOpt : Option String) (items : Option (List T)) (rest : List (Page T))
    (hfin : p.finished = false)
    (hempty : items = none ∨ items = some []) :
    (p.next c (⟨cr, items, hOpt⟩ :: rest)).1 = .ok none ∧
    (p.next c (⟨cr, items, hOpt⟩ :: rest)).2.1.finished = true ∧
    (p.next c (⟨cr, items, hOpt⟩ :: rest)).2.2.1.cursorClosedQ = true ∧
    (p.next c (⟨cr, items, hOpt⟩ :: rest)).2.2.2 = (rest, 1) ∧
    (∀ (c0 : WebwareClient) (good : List (Page T)),
      c0.cursor = none →
      (∀ pg ∈ good, pg.items ≠ none ∧ pg.items ≠ some [] ∧
        pg.cursorHeader ≠ some "CLOSED") →
      CursoredResponse.collect_all p c0 (good ++ [⟨cr, items, hOpt⟩]) =
        .ok (good.flatMap (fun pg => pg.items.getD []))) := by
  obtain ⟨cfinal, hnext, hclosed⟩ :=
    next_empty_page p c ⟨cr, items, hOpt⟩ rest hfin hempty
  refine ⟨by rw [hnext], by rw [hnext], by rw [hnext]; exact hclosed,
    by rw [hnext], ?_⟩
  intro c0 good hc0 hgood
  exact collectAll_good_aux ⟨cr, items, hOpt⟩ hempty p hfin good c0
    (Or.inl hc0) hgood

/-- A concrete `COMRESULT` for witnesses. -/
def sampleComRes : ComResult := ⟨200, "OK", "", none, none, none⟩

/-- C8 witness: the theorem applied to a fresh paginator on the
registered sample client, with an empty-list page as the script's only
entry. -/
theorem c8_witness :
    (CursoredResponse.mkNew "PUT" "ARTIKEL.GET" 1 500).finished = false ∧
    ((some [] : Option (List Nat)) = none ∨
      (some [] : Option (List Nat)) = some []) ∧
    (((CursoredResponse.mkNew "PUT" "ARTIKEL.GET" 1 500).next sampleRegistered
        ((⟨sampleComRes, (some [] : Option (List Nat)), none⟩ :
          Page Nat) :: [])).1 = .ok none ∧
     ((CursoredResponse.mkNew "PUT" "ARTIKEL.GET" 1 500).next sampleRegistered
        ((⟨sampleComRes, some [], none⟩ : Page Nat) :: [])).2.1.finished =
          true ∧
     ((CursoredResponse.mkNew "PUT" "ARTIKEL.GET" 1 500).next sampleRegistered
        ((⟨sampleComRes, some [], none⟩ : Page Nat) ::
          [])).2.2.1.cursorClosedQ = true ∧
     ((CursoredResponse.mkNew "PUT" "ARTIKEL.GET" 1 500).next sampleRegistered
        ((⟨sampleComRes, some [], none⟩ : Page Nat) :: [])).2.2.2 =
          ([], 1) ∧
     (∀ (c0 : WebwareClient) (good : List (Page Nat)),
        c0.cursor = none →
        (∀ pg ∈ good, pg.items ≠ none ∧ pg.items ≠ some [] ∧
          pg.cursorHeader ≠ some "CLOSED") →
        CursoredResponse.collect_all
            (CursoredResponse.mkNew "PUT" "ARTIKEL.GET" 1 500) c0
            (good ++ [⟨sampleComRes, some [], none⟩]) =
          .ok (good.flatMap (fun pg => pg.items.getD [])))) :=
  ⟨rfl, Or.inr rfl,
    c8_empty_or_missing_list_terminates
      (CursoredResponse.mkNew "PUT" "ARTIKEL.GET" 1 500) sampleRegistered
      sampleComRes none (some []) [] rfl (Or.inr rfl)⟩

/-! ### Reachable client states (for the credentials invariant) -/

/-- `get_default_headers` never changes the stored credentials. -/
lemma gdh_credentials (c : WebwareClient) (add : List (String × String))
    (t : Nat) :
    (c.get_default_headers add t).2.credentials = c.credentials := by
  rcases h : c.credentials with _ | creds <;>
    simp [WebwareClient.get_default_headers, h]

/-- `request_as_response` never changes the stored credentials. -/
lemma rar_credentials (c : WebwareClient) (m f : String) (v : Nat)
    (ps add : List (String × String)) (t : Nat)
    (resp : Except WWSVCError HttpResponse) :
    (c.request_as_response m f v ps add t resp).2.1.credentials =
      c.credentials := by
  rcases h : c.credentials with _ | creds
  · simp [WebwareClient.request_as_response, h]
  · cases resp with
    | error e => simp [WebwareClient.request_as_response, h, gdh_credentials]
    | ok r =>
        simp only [WebwareClient.request_as_response, h]
        repeat' split
        all_goals simp [gdh_credentials, h]

/-- The clients reachable through the public construction and operation
surface of `client.rs`, indexed by their type-state marker: building
(`From` / `TryFrom`), `register`, `create_cursor`,
`set_result_max_lines`, header construction (`get_default_headers`,
which also covers `get_bin_headers` — its only client mutation is the
same call), signed requests, `deregister`, cursor suspension toggles,
and the stream functions' hand-back of a `Registered` client. -/
inductive Reached : ClientState → WebwareClient → Prop where
  | build (i : InternalWebwareClient) : Reached .Unregistered (fromInternal i)
  | tryBuild (i : InternalWebwareClient) (c : WebwareClient) :
      tryFromInternal i = .ok c → Reached .Registered c
  | registerOk (c c2 : WebwareClient)
      (resp : Except WWSVCError RegisterResponse) (reqs : List HttpRequest) :
      Reached .Unregistered c → c.register resp = (reqs, .ok c2) →
      Reached .Registered c2
  | createCursor (s : ClientState) (c : WebwareClient) (ml : Nat) :
      Reached s c → s.ready = true → Reached .OpenCursor (c.create_cursor ml)
  | setMaxLines (s : ClientState) (c : WebwareClient) (ml : Nat) :
      Reached s c → s.ready = true → Reached s (c.set_result_max_lines ml)
  | defaultHeaders (s : ClientState) (c : WebwareClient)
      (add : List (String × String)) (t : Nat) :
      Reached s c → s.ready = true →
      Reached s (c.get_default_headers add t).2
  | requestOp (s : ClientState) (c : WebwareClient) (m f : String) (v : Nat)
      (ps add : List (String × String)) (t : Nat)
      (resp : Except WWSVCError HttpResponse) :
      Reached s c → s.ready = true →
      Reached s (c.request_as_response m f v ps add t resp).2.1
  | deregisterOp (s : ClientState) (c : WebwareClient) (t : Nat)
      (sendOk : Bool) :
      Reached s c → s.ready = true →
      Reached .Unregistered (c.deregister t sendOk).2
  | suspendOp (c : WebwareClient) :
      Reached .OpenCursor c → Reached .OpenCursor c.suspendCursorOp
  | resumeOp (c : WebwareClient) :
      Reached .OpenCursor c → Reached .OpenCursor c.resumeCursorOp
  | streamConsume (c : WebwareClient) :
      Reached .OpenCursor c → Reached .Registered { c with cursor := none }

/-- C10.  Every reachable client in a ready (`Registered` or
`OpenCursor`) state holds credentials: successful registration stores
them, `TryFrom` construction requires them (`MissingCredentials`
otherwise), and every operation that keeps the client in a ready state
preserves them — so `credentials()`'s unwrap and the service-pass access
in the request body cannot panic on an authenticated client. -/
theorem c10_ready_clients_have_credentials (s : ClientState)
    (c : WebwareClient) (h : Reached s c) (hs : s.ready = true) :
    c.credentials.isSome = true := by
  revert hs
  induction h with
  | build i => intro hs; simp [ClientState.ready] at hs
  | tryBuild i c hok =>
      intro _
      by_cases hcr : i.credentials.isNone
      · simp [tryFromInternal, hcr] at hok
      · simp [tryFromInternal, hcr] at hok
        rw [← hok]
        rcases hv : i.credentials with _ | v
        · rw [hv] at hcr; simp at hcr
        · simp [hv]
  | registerOk c c2 resp reqs hr hreg ih =>
      intro _
      cases resp with
      | error e => simp [WebwareClient.register] at hreg
      | ok r =>
          simp [WebwareClient.register] at hreg
          rw [← hreg.2]
          simp
  | createCursor s c ml hr hready ih =>
      intro _
      simpa [WebwareClient.create_cursor] using ih hready
  | setMaxLines s c ml hr hready ih =>
      intro _
      simpa [WebwareClient.set_result_max_lines] using ih hready
  | defaultHeaders s c add t hr hready ih =>
      intro _
      rw [Option.isSome_iff_exists] at ih ⊢
      simpa [gdh_credentials] using ih hready
  | requestOp s c m f v ps add t resp hr hready ih =>
      intro _
      rw [Option.isSome_iff_exists] at ih ⊢
      simpa [rar_credentials] using ih hready
  | deregisterOp s c t sendOk hr hready ih =>
      intro hs
      simp [ClientState.ready] at hs
  | suspendOp c hr ih =>
      intro _
      simpa [WebwareClient.suspendCursorOp] using ih rfl
  | resumeOp c hr ih =>
      intro _
      simpa [WebwareClient.resumeCursorOp] using ih rfl
  | streamConsume c hr ih =>
      intro _
      simpa using ih rfl

/-- The registered client the builder input with credentials `(p1, a1)`
converts to through `TryFrom`. -/
def sampleTryRegistered : WebwareClient :=
  { webware_url := builderBaseUrl, vendor_hash := "v", app_hash := "a"
    secret := "s", revision := 1, credentials := some ⟨"p1", "a1"⟩
    result_max_lines := 1000, cursor := none, current_request := 0
    suspend_cursor := false }

/-- C10 witness: the invariant applied to the client reached by
`TryFrom` construction from the builder input carrying credentials. -/
theorem c10_witness :
    ClientState.Registered.ready = true ∧
    sampleTryRegistered.credentials.isSome = true :=
  ⟨rfl, c10_ready_clients_have_credentials .Registered sampleTryRegistered
    (Reached.tryBuild sampleInternalWithCreds sampleTryRegistered rfl) rfl⟩

end WWSvc
